import Mathlib

set_option autoImplicit false

/-!
Shallow embedding of the multi-source paper filtering / ranking / selection
pipeline (package `paper_review`): the data models (`models/paper.py`,
`models/filters.py`, `models/summary.py`), the two fetcher agents
(`agents/fetcher/arxiv.py`, `agents/fetcher/huggingface.py`), the novelty
ranker (`agents/ranker.py`), the summarizer (`agents/summarizer.py`) and the
orchestrator (`core/pipeline.py`).

Conventions of the embedding:
* Python `float` scores are modelled as `ℚ` (the scoring arithmetic is a sum
  of three values divided by 3).
* `datetime` values are integers counting microseconds; a `date` is an integer
  day index, so `datetime.combine(d, time.min)` is `d * usPerDay` and
  `datetime.combine(d, time.max)` is `d * usPerDay + (usPerDay - 1)`
  (23:59:59.999999).  `datetime.now()` is an explicit `now : Int` parameter.
* External collaborators (arXiv API, HuggingFace API, Ollama LLM, PDF
  extraction) are out of scope per the spec; their per-call outcomes are
  explicit parameters (`Except`/oracle functions), and the code paths that
  consume those outcomes are translated faithfully.
* Python exceptions raised out of a function are modelled with `Except`;
  a caught-and-converted exception is modelled by the handler's value.
-/

/-- The `source` literal of `PaperMetadata` (`models/paper.py`):
`Literal["arxiv", "huggingface"]`. -/
inductive Source where
  | arxiv
  | huggingface
deriving DecidableEq, Repr

/-- `NoveltyScore` (`models/paper.py` lines 58-65).  The pydantic model
declares four plain `float` fields and a string; the field descriptions say
"(1-10)" but no `ge`/`le` validator is attached, so construction performs no
range check. -/
structure NoveltyScore where
  total_score : ℚ
  novelty : ℚ
  impact : ℚ
  clarity : ℚ
  reasoning : String
deriving DecidableEq, Repr

/-- `PaperMetadata` (`models/paper.py` lines 9-40). -/
structure PaperMetadata where
  title : String
  authors : List String
  summary : String
  published : Int
  updated : Option Int
  arxiv_id : Option String
  primary_category : String
  categories : List String
  pdf_url : Option String
  doi : Option String
  journal_ref : Option String
  comment : Option String
  upvotes : Int
  num_comments : Int
  github_repo : Option String
  github_stars : Int
  project_page : Option String
  thumbnail : Option String
  source : Source
  tags : List String
deriving DecidableEq, Repr

/-- `Paper` (`models/paper.py` lines 68-77). -/
structure Paper where
  metadata : PaperMetadata
  pdf_path : Option String
  full_text : Option String
  image_paths : List String
  novelty_score : Option NoveltyScore
deriving DecidableEq, Repr

/-- The `Literal["AND", "OR"]` filter-mode field of `FilterConfig`. -/
inductive FilterMode where
  | AND
  | OR
deriving DecidableEq, Repr

/-- `FilterConfig` (`models/filters.py` lines 9-56).  The pydantic numeric
constraints (`days_back ≥ 1`, `hf_min_upvotes ≥ 0`, `novelty_top_n ≥ 1`, a
non-empty `sources` list) are construction-time validations; theorems that
need them take them as explicit hypotheses. -/
structure FilterConfig where
  sources : List Source
  date_from : Option Int
  date_to : Option Int
  days_back : Int
  arxiv_categories : List String
  arxiv_filter_mode : FilterMode
  hf_keywords : List String
  hf_filter_mode : FilterMode
  hf_min_upvotes : Int
  hf_max_papers : Nat
  novelty_enabled : Bool
  novelty_top_n : Nat
  novelty_min_score : Option ℚ
deriving DecidableEq, Repr

/-- Microseconds in one day; `timedelta(days = 1)`. -/
def usPerDay : Int := 86400000000

/-- `FilterConfig.get_date_range` (`models/filters.py` lines 58-70):
`date_from` resolves to the start of its day, else `now - days_back` days;
`date_to` resolves to the last microsecond of its day, else `now`. -/
def FilterConfig.get_date_range (now : Int) (self : FilterConfig) : Int × Int :=
  let start_date : Int :=
    match self.date_from with
    | some d => d * usPerDay
    | none => now - self.days_back * usPerDay
  let end_date : Int :=
    match self.date_to with
    | some d => d * usPerDay + (usPerDay - 1)
    | none => now
  (start_date, end_date)

namespace ArxivFetcher

/-- `ArxivFetcher._apply_filters` (`agents/fetcher/arxiv.py` lines 133-163):
date window first, then the category AND/OR filter, skipped when
`arxiv_categories` is empty.  Python's `set(...).issubset` / `.intersection`
are membership tests, rendered with `List.all` / `List.any` over `contains`. -/
def apply_filters (now : Int) (cfg : FilterConfig) (paper : Paper) : Bool :=
  if ¬ ((FilterConfig.get_date_range now cfg).1 ≤ paper.metadata.published ∧
        paper.metadata.published ≤ (FilterConfig.get_date_range now cfg).2) then
    false
  else if cfg.arxiv_categories.isEmpty then
    true
  else if cfg.arxiv_filter_mode = FilterMode.AND then
    cfg.arxiv_categories.all (fun c => paper.metadata.categories.contains c)
  else
    cfg.arxiv_categories.any (fun c => paper.metadata.categories.contains c)

end ArxivFetcher

namespace HuggingFaceFetcher

/-- `HuggingFaceFetcher._apply_filters` (`agents/fetcher/huggingface.py`
lines 122-157): date window, then the upvote floor (active only when
`hf_min_upvotes > 0`), then the keyword AND/OR filter over `tags`. -/
def apply_filters (now : Int) (cfg : FilterConfig) (paper : Paper) : Bool :=
  if ¬ ((FilterConfig.get_date_range now cfg).1 ≤ paper.metadata.published ∧
        paper.metadata.published ≤ (FilterConfig.get_date_range now cfg).2) then
    false
  else if cfg.hf_min_upvotes > 0 ∧ paper.metadata.upvotes < cfg.hf_min_upvotes then
    false
  else if cfg.hf_keywords.isEmpty then
    true
  else if cfg.hf_filter_mode = FilterMode.AND then
    cfg.hf_keywords.all (fun c => paper.metadata.tags.contains c)
  else
    cfg.hf_keywords.any (fun c => paper.metadata.tags.contains c)

end HuggingFaceFetcher

namespace NoveltyRanker

/-- The JSON object obtained from `json.loads` on the (de-fenced) LLM reply in
`NoveltyRanker._score_paper` (`agents/ranker.py` lines 138-145): a dictionary
that may or may not carry each of the keys the code reads
(`novelty`, `impact`, `clarity`, `reasoning`) and may also carry its own
`total` aggregate, which the code never reads.  A present-but-non-numeric
field makes the later arithmetic raise; that situation is the
`ScoreOutcome.failure` case below, so fields here are numeric when present. -/
structure ParsedScores where
  novelty : Option ℚ
  impact : Option ℚ
  clarity : Option ℚ
  total : Option ℚ
  reasoning : Option String
deriving DecidableEq, Repr

/-- Outcome of the `try` block of `_score_paper` up to and including
`json.loads`: either a parsed JSON object, or an exception (network failure,
timeout, malformed JSON, non-numeric fields, validation error) with its
message. -/
inductive ScoreOutcome where
  | parsed : ParsedScores → ScoreOutcome
  | failure : String → ScoreOutcome
deriving DecidableEq, Repr

/-- `NoveltyRanker._score_paper` (`agents/ranker.py` lines 96-169) after the
prompt-building boilerplate: on a parsed response, each missing field defaults
to `5.0`, `total_score` is recomputed as the mean of the three fields
(lines 147-158); on any exception the `except` handler (lines 160-169) returns
the neutral sentinel with an `Error: ...` reasoning.  The whole body is inside
`try`/`except`, so this function is total (never raises to its caller). -/
def score_paper (outcome : ScoreOutcome) : NoveltyScore :=
  match outcome with
  | ScoreOutcome.parsed scores =>
      let total_score : ℚ :=
        (scores.novelty.getD 5 + scores.impact.getD 5 + scores.clarity.getD 5) / 3
      { total_score := total_score
        novelty := scores.novelty.getD 5
        impact := scores.impact.getD 5
        clarity := scores.clarity.getD 5
        reasoning := scores.reasoning.getD "" }
  | ScoreOutcome.failure e =>
      { total_score := 5, novelty := 5, impact := 5, clarity := 5
        reasoning := "Error: " ++ e }

/-- One iteration of the scoring loop of `rank_papers` (`agents/ranker.py`
lines 64-78): only arXiv-source papers are scored (`paper.novelty_score`
assigned); other papers are left untouched.  The scoring-procedure outcome for
each paper is the oracle `llm`.  Since `_score_paper` never raises, the outer
`except` branch of the loop is unreachable and the assigned score is always
`score_paper (llm paper)`. -/
def score_step (llm : Paper → ScoreOutcome) (paper : Paper) : Paper :=
  if paper.metadata.source = Source.arxiv then
    { paper with novelty_score := some (score_paper (llm paper)) }
  else
    paper

/-- Sort key of `rank_papers`: `lambda x: x.novelty_score.total_score`
(`agents/ranker.py` line 83).  The lambda is only ever applied to papers with
a score (the list is pre-filtered on `novelty_score is not None`); the `none`
branch is an arbitrary default standing for the attribute error Python would
raise. -/
def key_total (paper : Paper) : ℚ :=
  match paper.novelty_score with
  | some s => s.total_score
  | none => 0

/-- Stable descending insertion: an element is placed before the first
element whose key is not larger, so equal-key elements keep their original
relative order.  Together with `sort_desc` this models Python's
`sorted(..., key=..., reverse=True)`, which is stable and descending; any
stable descending sort is extensionally the same function. -/
def insert_desc (x : Paper) : List Paper → List Paper
  | [] => [x]
  | y :: ys =>
      if key_total y ≤ key_total x then x :: y :: ys else y :: insert_desc x ys

/-- Stable descending sort by `key_total`; models line 82-84 of
`agents/ranker.py`. -/
def sort_desc : List Paper → List Paper
  | [] => []
  | x :: xs => insert_desc x (sort_desc xs)

/-- `n = top_n or self.top_papers_count` (`agents/ranker.py` line 55):
Python's `or` falls back to the configured count when `top_n` is `None` or
`0`. -/
def effective_top_n (top_n : Option Nat) (top_papers_count : Nat) : Nat :=
  match top_n with
  | none => top_papers_count
  | some k => if k = 0 then top_papers_count else k

/-- `NoveltyRanker.rank_papers` (`agents/ranker.py` lines 40-94).
`enabled` and `top_papers_count` are the ranker's construction-time
configuration (`self.enabled`, `self.top_papers_count`); `llm` is the
per-paper outcome of the scoring procedure.  Returns the selected papers
together with the number of scoring-procedure invocations made (one per
arXiv-source paper when the ranking pass runs, zero on the fast paths). -/
def rank_papers (enabled : Bool) (top_papers_count : Nat)
    (llm : Paper → ScoreOutcome) (papers : List Paper) (top_n : Option Nat) :
    List Paper × Nat :=
  if enabled = false then
    (papers, 0)
  else
    let n := effective_top_n top_n top_papers_count
    if papers.length ≤ n then
      (papers, 0)
    else
      let annotated := papers.map (score_step llm)
      let scored_papers := annotated.filter (fun p => p.novelty_score.isSome)
      let sorted_papers := sort_desc scored_papers
      (sorted_papers.take n,
       (papers.filter (fun p => p.metadata.source = Source.arxiv)).length)

/-- `NoveltyRanker.execute` (`agents/ranker.py` lines 171-185): return the
papers untouched when the filter config disables ranking, else rank with
`top_n = filter_config.novelty_top_n`. -/
def execute (enabled : Bool) (top_papers_count : Nat)
    (llm : Paper → ScoreOutcome) (papers : List Paper) (fc : FilterConfig) :
    List Paper × Nat :=
  if fc.novelty_enabled = false then
    (papers, 0)
  else
    rank_papers enabled top_papers_count llm papers (some fc.novelty_top_n)

end NoveltyRanker

/-- A raw `arxiv.Result` as consumed by `ArxivClient.to_paper_metadata`
(`utils/arxiv.py` lines 133-158).  The external library's duck-typed record;
`published` is `Option` because a result lacking a publication timestamp is
the realistic way the pydantic construction inside the conversion raises
(`PaperMetadata.published` is a required field). -/
structure RawArxiv where
  title : String
  authors : List String
  summary : String
  published : Option Int
  updated : Option Int
  entry_id : String
  pdf_url : Option String
  primary_category : String
  categories : List String
  doi : Option String
  journal_ref : Option String
  comment : Option String
deriving DecidableEq, Repr

namespace ArxivClient

/-- `paper.entry_id.split("/")[-1]` (`utils/arxiv.py` line 149). -/
def entry_id_tail (entry_id : String) : String :=
  (entry_id.splitOn "/").getLastD ""

/-- `ArxivClient.to_paper_metadata` (`utils/arxiv.py` lines 133-158).  The
function body has no exception handling: a record that cannot be validated
into `PaperMetadata` (here: a missing `published` value) raises out of the
conversion, modelled by `Except.error`. -/
def to_paper_metadata (paper : RawArxiv) : Except String PaperMetadata :=
  match paper.published with
  | none => Except.error "validation error: published is a required field"
  | some published =>
      Except.ok
        { title := paper.title
          authors := paper.authors
          summary := paper.summary
          published := published
          updated := paper.updated
          arxiv_id := some (entry_id_tail paper.entry_id)
          primary_category := paper.primary_category
          categories := paper.categories
          pdf_url := paper.pdf_url
          doi := paper.doi
          journal_ref := paper.journal_ref
          comment := paper.comment
          upvotes := 0
          num_comments := 0
          github_repo := none
          github_stars := 0
          project_page := none
          thumbnail := none
          source := Source.arxiv
          tags := paper.categories }

end ArxivClient

namespace ArxivFetcher

/-- The conversion-and-filter loop of `ArxivFetcher.fetch_metadata_only`
(`agents/fetcher/arxiv.py` lines 64-71).  The loop body has no `try`/`except`:
the first conversion that raises propagates out and aborts the whole batch,
which `Except.error` records.  A converted paper is appended only when it
passes `_apply_filters`. -/
def fetch_loop (now : Int) (cfg : FilterConfig) :
    List RawArxiv → Except String (List Paper)
  | [] => Except.ok []
  | r :: rs =>
      match ArxivClient.to_paper_metadata r with
      | Except.error e => Except.error e
      | Except.ok metadata =>
          let paper : Paper :=
            { metadata := metadata, pdf_path := none, full_text := none
              image_paths := [], novelty_score := none }
          match fetch_loop now cfg rs with
          | Except.error e => Except.error e
          | Except.ok rest =>
              if apply_filters now cfg paper then Except.ok (paper :: rest)
              else Except.ok rest

/-- `ArxivFetcher.fetch_metadata_only` (`agents/fetcher/arxiv.py` lines
41-78): early `[]` when the arXiv source is not selected, otherwise the
convert-and-filter loop over the results delivered by the external arXiv
client. -/
def fetch_metadata_only (now : Int) (cfg : FilterConfig)
    (arxiv_results : List RawArxiv) : Except String (List Paper) :=
  if ¬ Source.arxiv ∈ cfg.sources then Except.ok []
  else fetch_loop now cfg arxiv_results

/-- Outcome of the download / text-extraction / image-extraction collaborators
inside `ArxivFetcher.process_paper` (`agents/fetcher/arxiv.py` lines 80-131):
the artifact values assigned before the first failure (`none` / `[]` for the
ones never reached).  The collaborators are out-of-scope externals, so their
result is a parameter. -/
structure ProcOutcome where
  pdf_path : Option String
  full_text : Option String
  image_paths : List String
deriving DecidableEq, Repr

/-- `ArxivFetcher.process_paper` (`agents/fetcher/arxiv.py` lines 80-131):
a paper without an arXiv id is returned unchanged; otherwise the artifact
fields produced by the collaborators are written onto the paper and the paper
is returned even when processing failed midway (the `except` branch returns
the partially-updated paper).  The metadata is never modified. -/
def process_paper (proc : ProcOutcome) (paper : Paper) : Paper :=
  match paper.metadata.arxiv_id with
  | none => paper
  | some _ =>
      { paper with
          pdf_path := proc.pdf_path
          full_text := proc.full_text
          image_paths := proc.image_paths }

end ArxivFetcher

/-- A raw entry of the HuggingFace daily-papers JSON as consumed by
`HuggingFaceFetcher._parse_paper` (`agents/fetcher/huggingface.py` lines
72-120): the nested `paper` object's fields plus the top-level engagement
fields.  `publishedAt` is `Option` because a missing/unparsable timestamp is
the realistic way `datetime.fromisoformat(published_at.replace(...))` raises
inside the guarded parse. -/
structure RawHF where
  title : String
  authors : List String
  summary : String
  publishedAt : Option Int
  id : Option String
  ai_keywords : List String
  upvotes : Int
  numComments : Int
  githubRepo : Option String
  githubStars : Int
  projectPage : Option String
  thumbnail : Option String
deriving DecidableEq, Repr

namespace HuggingFaceFetcher

/-- `HuggingFaceFetcher._parse_paper` (`agents/fetcher/huggingface.py` lines
72-120): builds a `huggingface`-source `PaperMetadata` from one raw entry;
the whole body is wrapped in `try`/`except` returning `None` on failure, so
one malformed entry yields `none` instead of raising. -/
def parse_paper (data : RawHF) : Option Paper :=
  match data.publishedAt with
  | none => none
  | some published =>
      some
        { metadata :=
            { title := data.title
              authors := data.authors
              summary := data.summary
              published := published
              updated := none
              arxiv_id := data.id
              primary_category := data.ai_keywords.headD "unknown"
              categories := data.ai_keywords
              pdf_url := none
              doi := none
              journal_ref := none
              comment := none
              upvotes := data.upvotes
              num_comments := data.numComments
              github_repo := data.githubRepo
              github_stars := data.githubStars
              project_page := data.projectPage
              thumbnail := data.thumbnail
              source := Source.huggingface
              tags := data.ai_keywords }
          pdf_path := none, full_text := none, image_paths := []
          novelty_score := none }

/-- The parse-and-filter loop of `fetch_daily_papers`
(`agents/fetcher/huggingface.py` lines 53-57): `if paper and
self._apply_filters(paper, filter_config): papers.append(paper)` — an entry
whose parse failed (`None`) is skipped and the loop continues. -/
def parse_batch (now : Int) (cfg : FilterConfig) : List RawHF → List Paper
  | [] => []
  | d :: ds =>
      match parse_paper d with
      | none => parse_batch now cfg ds
      | some paper =>
          if apply_filters now cfg paper then paper :: parse_batch now cfg ds
          else parse_batch now cfg ds

/-- `HuggingFaceFetcher.fetch_daily_papers` (`agents/fetcher/huggingface.py`
lines 27-70): early `[]` when the source is not selected; the network call's
outcome is `net` (`Except.error` for an `httpx` failure or any other
exception, caught by the two `except` clauses which both return `[]`); on
success the parse-and-filter loop runs and the result is truncated to
`hf_max_papers`. -/
def fetch_daily_papers (now : Int) (cfg : FilterConfig)
    (net : Except String (List RawHF)) : List Paper :=
  if ¬ Source.huggingface ∈ cfg.sources then []
  else
    match net with
    | Except.error _ => []
    | Except.ok papers_data =>
        (parse_batch now cfg papers_data).take cfg.hf_max_papers

end HuggingFaceFetcher

/-- `PaperSummary` (`models/summary.py` lines 10-16). -/
structure PaperSummary where
  paper_id : String
  metadata : PaperMetadata
  summary : String
  image_paths : List String
deriving DecidableEq, Repr

/-- `SummaryReport` (`models/summary.py` lines 36-43). -/
structure SummaryReport where
  date : String
  total_papers : Nat
  arxiv_count : Nat
  huggingface_count : Nat
  summaries : List PaperSummary
deriving DecidableEq, Repr

namespace SummarizerAgent

/-- `SummarizerAgent.summarize_paper` (`agents/summarizer.py` lines 102-145):
the summary text is the LLM reply, or an `Error creating summary: ...` string
when the call raised; either way the returned `PaperSummary` carries the
paper's metadata and image paths unchanged.  `gen` is the outcome of the LLM
call for this paper. -/
def summarize_paper (gen : Paper → Except String String) (paper : Paper) :
    PaperSummary :=
  let paper_id :=
    match paper.metadata.arxiv_id with
    | some i => i
    | none => paper.metadata.title.take 20
  { paper_id := paper_id
    metadata := paper.metadata
    summary :=
      match gen paper with
      | Except.ok t => t
      | Except.error e => "Error creating summary: " ++ e
    image_paths := paper.image_paths }

end SummarizerAgent

namespace PaperReviewPipeline

/-- `PaperReviewPipeline._create_empty_report` (`core/pipeline.py` lines
110-118). -/
def create_empty_report (today : String) : SummaryReport :=
  { date := today, total_papers := 0, arxiv_count := 0, huggingface_count := 0
    summaries := [] }

/-- Stages 2-5 of `PaperReviewPipeline.run` (`core/pipeline.py` lines 60-108),
after both fetches have produced their lists: empty-merge early return,
partition by source, novelty ranking of the arXiv partition (guarded by
`arxiv_papers and filter_config.novelty_enabled`), optional PDF processing of
the ranked arXiv papers (in-place in Python, hence applied before the
concatenation the summarizer sees), summarization, and report assembly with
partition-and-count over the summaries. -/
def run_core (cfg : FilterConfig) (rk_enabled : Bool) (rk_top : Nat)
    (llm : Paper → NoveltyRanker.ScoreOutcome) (process_pdfs : Bool)
    (proc : Paper → ArxivFetcher.ProcOutcome)
    (gen : Paper → Except String String) (today : String)
    (arxiv_fetched hf_fetched : List Paper) : SummaryReport :=
  let all_papers := arxiv_fetched ++ hf_fetched
  if all_papers.isEmpty then create_empty_report today
  else
    let arxiv_papers :=
      all_papers.filter (fun p => p.metadata.source = Source.arxiv)
    let hf_papers :=
      all_papers.filter (fun p => p.metadata.source = Source.huggingface)
    let ranked_arxiv :=
      if ¬ arxiv_papers.isEmpty ∧ cfg.novelty_enabled then
        (NoveltyRanker.execute rk_enabled rk_top llm arxiv_papers cfg).1
      else arxiv_papers
    let processed :=
      if process_pdfs ∧ ¬ ranked_arxiv.isEmpty then
        ranked_arxiv.map (fun p => ArxivFetcher.process_paper (proc p) p)
      else ranked_arxiv
    let selected_papers := processed ++ hf_papers
    let summaries := selected_papers.map (SummarizerAgent.summarize_paper gen)
    { date := today
      total_papers := summaries.length
      arxiv_count :=
        (summaries.filter (fun s => s.metadata.source = Source.arxiv)).length
      huggingface_count :=
        (summaries.filter
          (fun s => s.metadata.source = Source.huggingface)).length
      summaries := summaries }

/-- `PaperReviewPipeline.run` (`core/pipeline.py` lines 32-108).  Stage 1
invokes each enabled fetcher (`arxiv_results` / `hf_net` are the external
API outcomes); an exception out of the arXiv fetch (conversion error) is not
caught anywhere in `run`, so it propagates as `Except.error`; the HuggingFace
fetch handles its own failures and always returns a list. -/
def run (cfg : FilterConfig) (now : Int) (rk_enabled : Bool) (rk_top : Nat)
    (llm : Paper → NoveltyRanker.ScoreOutcome) (process_pdfs : Bool)
    (proc : Paper → ArxivFetcher.ProcOutcome)
    (gen : Paper → Except String String) (today : String)
    (arxiv_results : List RawArxiv) (hf_net : Except String (List RawHF)) :
    Except String SummaryReport :=
  match
    (if Source.arxiv ∈ cfg.sources then
      ArxivFetcher.fetch_metadata_only now cfg arxiv_results
     else Except.ok []) with
  | Except.error e => Except.error e
  | Except.ok arxiv_fetched =>
      let hf_fetched :=
        if Source.huggingface ∈ cfg.sources then
          HuggingFaceFetcher.fetch_daily_papers now cfg hf_net
        else []
      Except.ok
        (run_core cfg rk_enabled rk_top llm process_pdfs proc gen today
          arxiv_fetched hf_fetched)

end PaperReviewPipeline

/-! ## Sample data used by concrete witnesses and counterexamples -/

/-- A baseline `FilterConfig` with the model's default field values. -/
def sampleConfig : FilterConfig :=
  { sources := [Source.arxiv, Source.huggingface]
    date_from := none, date_to := none, days_back := 1
    arxiv_categories := [], arxiv_filter_mode := FilterMode.OR
    hf_keywords := [], hf_filter_mode := FilterMode.OR
    hf_min_upvotes := 0, hf_max_papers := 50
    novelty_enabled := true, novelty_top_n := 10, novelty_min_score := none }

/-- A concrete arXiv-source metadata record. -/
def sampleMetadata : PaperMetadata :=
  { title := "Paper A", authors := ["Author 1"], summary := "abstract"
    published := 0, updated := none, arxiv_id := some "2511.00001"
    primary_category := "cs.LG", categories := ["cs.LG"]
    pdf_url := none, doi := none, journal_ref := none, comment := none
    upvotes := 0, num_comments := 0, github_repo := none, github_stars := 0
    project_page := none, thumbnail := none
    source := Source.arxiv, tags := ["cs.LG"] }

/-- A concrete arXiv-source paper. -/
def samplePaper : Paper :=
  { metadata := sampleMetadata, pdf_path := none, full_text := none
    image_paths := [], novelty_score := none }

/-- A second concrete arXiv-source paper. -/
def samplePaper2 : Paper :=
  { samplePaper with
      metadata :=
        { sampleMetadata with
            title := "Paper B", arxiv_id := some "2511.00002" } }

/-- A raw arXiv record whose conversion raises (no publication timestamp). -/
def badRawArxiv : RawArxiv :=
  { title := "bad", authors := [], summary := "", published := none
    updated := none, entry_id := "http://arxiv.org/abs/2511.00003v1"
    pdf_url := none, primary_category := "cs.LG", categories := ["cs.LG"]
    doi := none, journal_ref := none, comment := none }

/-- A raw arXiv record whose conversion succeeds. -/
def goodRawArxiv : RawArxiv :=
  { badRawArxiv with
      title := "good", published := some 0,
      entry_id := "http://arxiv.org/abs/2511.00004v1" }

/-- A raw HuggingFace entry whose parse fails (no `publishedAt`). -/
def badRawHF : RawHF :=
  { title := "bad", authors := [], summary := "", publishedAt := none
    id := none, ai_keywords := [], upvotes := 0, numComments := 0
    githubRepo := none, githubStars := 0, projectPage := none
    thumbnail := none }

/-- A raw HuggingFace entry whose parse succeeds. -/
def goodRawHF : RawHF :=
  { badRawHF with title := "good", publishedAt := some 0 }

/-! ## Properties of the stable descending sort -/

namespace NoveltyRanker

lemma insert_desc_perm (x : Paper) (l : List Paper) :
    (insert_desc x l).Perm (x :: l) := by
  induction l with
  | nil => simp [insert_desc]
  | cons y ys ih =>
      by_cases h : key_total y ≤ key_total x
      · simp [insert_desc, h]
      · simp only [insert_desc, if_neg h]
        exact (ih.cons y).trans (List.Perm.swap x y ys)

lemma sort_desc_perm (l : List Paper) : (sort_desc l).Perm l := by
  induction l with
  | nil => simp [sort_desc]
  | cons x xs ih =>
      exact (insert_desc_perm x (sort_desc xs)).trans (ih.cons x)

lemma insert_desc_pairwise (x : Paper) (l : List Paper)
    (h : l.Pairwise (fun a b => key_total b ≤ key_total a)) :
    (insert_desc x l).Pairwise (fun a b => key_total b ≤ key_total a) := by
  induction l with
  | nil => simp [insert_desc]
  | cons y ys ih =>
      rcases List.pairwise_cons.mp h with ⟨hy, hys⟩
      by_cases hxy : key_total y ≤ key_total x
      · simp only [insert_desc, if_pos hxy]
        refine List.pairwise_cons.mpr ⟨?_, h⟩
        intro b hb
        rcases List.mem_cons.mp hb with rfl | hb'
        · exact hxy
        · exact le_trans (hy b hb') hxy
      · simp only [insert_desc, if_neg hxy]
        refine List.pairwise_cons.mpr ⟨?_, ih hys⟩
        intro b hb
        rcases List.mem_cons.mp ((insert_desc_perm x ys).mem_iff.mp hb) with rfl | hb'
        · exact le_of_not_le hxy
        · exact hy b hb'

lemma sort_desc_pairwise (l : List Paper) :
    (sort_desc l).Pairwise (fun a b => key_total b ≤ key_total a) := by
  induction l with
  | nil => simp [sort_desc]
  | cons x xs ih => exact insert_desc_pairwise x (sort_desc xs) ih

lemma insert_desc_filter_key (x : Paper) (l : List Paper) (s : ℚ) :
    (insert_desc x l).filter (fun p => decide (key_total p = s)) =
      if key_total x = s then
        x :: l.filter (fun p => decide (key_total p = s))
      else l.filter (fun p => decide (key_total p = s)) := by
  induction l with
  | nil => by_cases h : key_total x = s <;> simp [insert_desc, h]
  | cons y ys ih =>
      by_cases hxy : key_total y ≤ key_total x
      · rw [insert_desc, if_pos hxy]
        simp [List.filter_cons]
      · rw [insert_desc, if_neg hxy]
        simp only [List.filter_cons, decide_eq_true_eq, ih]
        by_cases hx : key_total x = s
        · have hyne : ¬ key_total y = s := by
            intro hys
            exact hxy (le_of_eq (by rw [hys, hx]))
          simp [hx, hyne]
        · by_cases hys : key_total y = s <;> simp [hx, hys]

lemma sort_desc_filter_key (l : List Paper) (s : ℚ) :
    (sort_desc l).filter (fun p => decide (key_total p = s)) =
      l.filter (fun p => decide (key_total p = s)) := by
  induction l with
  | nil => simp [sort_desc]
  | cons x xs ih =>
      rw [sort_desc, insert_desc_filter_key]
      by_cases hx : key_total x = s <;> simp [List.filter_cons, hx, ih]

/-- A parsed scoring response used by concrete witnesses. -/
def sampleParsed : ParsedScores :=
  { novelty := some 7, impact := some 8, clarity := some 9
    total := none, reasoning := some "solid" }

/-- A scoring outcome used by concrete witnesses. -/
def sampleOutcome : ScoreOutcome :=
  ScoreOutcome.parsed sampleParsed

/-- Unfolding of the ranking pass when it actually runs. -/
lemma rank_papers_run (top_papers_count : Nat)
    (llm : Paper → ScoreOutcome) (papers : List Paper) (top_n : Option Nat)
    (h : effective_top_n top_n top_papers_count < papers.length) :
    rank_papers true top_papers_count llm papers top_n =
      ((sort_desc ((papers.map (score_step llm)).filter
          (fun p => p.novelty_score.isSome))).take
            (effective_top_n top_n top_papers_count),
       (papers.filter (fun p => p.metadata.source = Source.arxiv)).length) := by
  rw [rank_papers]
  simp only [Bool.true_eq_false, if_false]
  rw [if_neg (not_le.mpr h)]

end NoveltyRanker

/-! ## Claim theorems -/

/-- C1: when the ranking pass actually runs (ranking enabled and more records
than `top_n`), the returned sequence has `total_score` non-increasing from
first to last, every returned record carries a score, records with equal
`total_score` keep the relative order they had in the (annotated) input list,
and the output length is at most `min top_n (length of the input)`. -/
theorem rank_papers_sorted_stable_bounded (top_papers_count : Nat)
    (llm : Paper → NoveltyRanker.ScoreOutcome) (papers : List Paper)
    (top_n : Option Nat)
    (h : NoveltyRanker.effective_top_n top_n top_papers_count < papers.length) :
    ((NoveltyRanker.rank_papers true top_papers_count llm papers top_n).1.Pairwise
        (fun a b => NoveltyRanker.key_total b ≤ NoveltyRanker.key_total a))
    ∧ (∀ p ∈ (NoveltyRanker.rank_papers true top_papers_count llm papers top_n).1,
        p.novelty_score.isSome = true)
    ∧ (∀ s : ℚ,
        ((NoveltyRanker.rank_papers true top_papers_count llm papers
            top_n).1.filter
          (fun p => decide (NoveltyRanker.key_total p = s))).Sublist
          (papers.map (NoveltyRanker.score_step llm)))
    ∧ (NoveltyRanker.rank_papers true top_papers_count llm papers
        top_n).1.length ≤
        min (NoveltyRanker.effective_top_n top_n top_papers_count)
          papers.length := by
  rw [NoveltyRanker.rank_papers_run top_papers_count llm papers top_n h]
  refine ⟨?_, ?_, ?_, ?_⟩
  · exact List.Pairwise.sublist (List.take_sublist _ _)
      (NoveltyRanker.sort_desc_pairwise _)
  · intro p hp
    have h1 := List.Sublist.mem hp (List.take_sublist _ _)
    have h2 := (NoveltyRanker.sort_desc_perm _).mem_iff.mp h1
    simpa using List.of_mem_filter h2
  · intro s
    have t1 := List.Sublist.filter
      (fun p => decide (NoveltyRanker.key_total p = s))
      (List.take_sublist (NoveltyRanker.effective_top_n top_n top_papers_count)
        (NoveltyRanker.sort_desc
          ((papers.map (NoveltyRanker.score_step llm)).filter
            (fun p => p.novelty_score.isSome))))
    rw [NoveltyRanker.sort_desc_filter_key] at t1
    exact t1.trans ((List.filter_sublist _).trans (List.filter_sublist _))
  · rw [List.length_take]
    have hlen : (NoveltyRanker.sort_desc
        ((papers.map (NoveltyRanker.score_step llm)).filter
          (fun p => p.novelty_score.isSome))).length ≤ papers.length := by
      rw [(NoveltyRanker.sort_desc_perm _).length_eq]
      calc ((papers.map (NoveltyRanker.score_step llm)).filter
              (fun p => p.novelty_score.isSome)).length
          ≤ (papers.map (NoveltyRanker.score_step llm)).length :=
            List.length_filter_le _ _
        _ = papers.length := List.length_map _ _
    exact min_le_min (le_refl _) hlen

/-- Witness for C1 at a concrete two-paper input with `top_n = 1`. -/
theorem rank_papers_sorted_stable_bounded_witness :
    NoveltyRanker.effective_top_n (some 1) 10 <
      [samplePaper, samplePaper2].length
    ∧ (((NoveltyRanker.rank_papers true 10 (fun _ => NoveltyRanker.sampleOutcome)
          [samplePaper, samplePaper2] (some 1)).1.Pairwise
          (fun a b => NoveltyRanker.key_total b ≤ NoveltyRanker.key_total a))
      ∧ (∀ p ∈ (NoveltyRanker.rank_papers true 10 (fun _ => NoveltyRanker.sampleOutcome)
            [samplePaper, samplePaper2] (some 1)).1,
          p.novelty_score.isSome = true)
      ∧ (∀ s : ℚ,
          ((NoveltyRanker.rank_papers true 10 (fun _ => NoveltyRanker.sampleOutcome)
              [samplePaper, samplePaper2] (some 1)).1.filter
            (fun p => decide (NoveltyRanker.key_total p = s))).Sublist
            ([samplePaper, samplePaper2].map
              (NoveltyRanker.score_step (fun _ => NoveltyRanker.sampleOutcome))))
      ∧ (NoveltyRanker.rank_papers true 10 (fun _ => NoveltyRanker.sampleOutcome)
          [samplePaper, samplePaper2] (some 1)).1.length ≤
          min (NoveltyRanker.effective_top_n (some 1) 10)
            [samplePaper, samplePaper2].length) :=
  ⟨by decide,
   rank_papers_sorted_stable_bounded 10 (fun _ => NoveltyRanker.sampleOutcome)
     [samplePaper, samplePaper2] (some 1) (by decide)⟩

/-- C2: when the scoring procedure for an arXiv-source record fails, the
ranking pass attaches the sentinel `NoveltyScore` (total 5.0, all sub-scores
5.0, failure-description reasoning) instead of dropping the record: the
annotated record is present in the list the sort step runs on, with
`total_score = 5`. -/
theorem rank_papers_sentinel_on_failure
    (llm : Paper → NoveltyRanker.ScoreOutcome) (papers : List Paper)
    (p : Paper) (e : String)
    (hp : p ∈ papers) (hsrc : p.metadata.source = Source.arxiv)
    (hfail : llm p = NoveltyRanker.ScoreOutcome.failure e) :
    NoveltyRanker.score_step llm p =
      { p with novelty_score := some ⟨5, 5, 5, 5, "Error: " ++ e⟩ }
    ∧ NoveltyRanker.score_step llm p ∈
        (papers.map (NoveltyRanker.score_step llm)).filter
          (fun q => q.novelty_score.isSome)
    ∧ NoveltyRanker.key_total (NoveltyRanker.score_step llm p) = 5 := by
  have hstep : NoveltyRanker.score_step llm p =
      { p with novelty_score := some ⟨5, 5, 5, 5, "Error: " ++ e⟩ } := by
    rw [NoveltyRanker.score_step, if_pos hsrc, hfail]
    rfl
  refine ⟨hstep, ?_, ?_⟩
  · refine List.mem_filter.mpr ⟨List.mem_map_of_mem _ hp, ?_⟩
    rw [hstep]
    rfl
  · rw [hstep]
    rfl

/-- Witness for C2 at a concrete paper whose scoring call fails. -/
theorem rank_papers_sentinel_on_failure_witness :
    samplePaper ∈ [samplePaper, samplePaper2]
    ∧ samplePaper.metadata.source = Source.arxiv
    ∧ ((fun _ : Paper => NoveltyRanker.ScoreOutcome.failure "timeout")
        samplePaper = NoveltyRanker.ScoreOutcome.failure "timeout")
    ∧ (NoveltyRanker.score_step
        (fun _ => NoveltyRanker.ScoreOutcome.failure "timeout") samplePaper =
        { samplePaper with novelty_score := some ⟨5, 5, 5, 5, "Error: " ++ "timeout"⟩ }
      ∧ NoveltyRanker.score_step
          (fun _ => NoveltyRanker.ScoreOutcome.failure "timeout") samplePaper ∈
          ([samplePaper, samplePaper2].map
            (NoveltyRanker.score_step
              (fun _ => NoveltyRanker.ScoreOutcome.failure "timeout"))).filter
            (fun q => q.novelty_score.isSome)
      ∧ NoveltyRanker.key_total
          (NoveltyRanker.score_step
            (fun _ => NoveltyRanker.ScoreOutcome.failure "timeout")
            samplePaper) = 5) :=
  ⟨by decide, rfl, rfl,
   rank_papers_sentinel_on_failure
     (fun _ => NoveltyRanker.ScoreOutcome.failure "timeout")
     [samplePaper, samplePaper2] samplePaper "timeout"
     (by decide) rfl rfl⟩

/-- C4: when ranking is disabled, or when the input has at most `top_n`
records, `rank_papers` returns the input unchanged and makes zero
scoring-procedure calls. -/
theorem rank_papers_fast_path (enabled : Bool) (top_papers_count : Nat)
    (llm : Paper → NoveltyRanker.ScoreOutcome) (papers : List Paper)
    (top_n : Option Nat)
    (h : enabled = false ∨
      papers.length ≤ NoveltyRanker.effective_top_n top_n top_papers_count) :
    NoveltyRanker.rank_papers enabled top_papers_count llm papers top_n =
      (papers, 0) := by
  rcases h with h | h
  · simp [NoveltyRanker.rank_papers, h]
  · by_cases he : enabled = false
    · simp [NoveltyRanker.rank_papers, he]
    · simp [NoveltyRanker.rank_papers, he, h]

/-- Witness for C4 at a concrete one-paper input with default `top_n`. -/
theorem rank_papers_fast_path_witness :
    (false = false ∨
      [samplePaper].length ≤ NoveltyRanker.effective_top_n none 10)
    ∧ NoveltyRanker.rank_papers false 10 (fun _ => NoveltyRanker.sampleOutcome)
        [samplePaper] none = ([samplePaper], 0)
    ∧ NoveltyRanker.rank_papers true 10 (fun _ => NoveltyRanker.sampleOutcome)
        [samplePaper] none = ([samplePaper], 0) :=
  ⟨Or.inl rfl,
   rank_papers_fast_path false 10 (fun _ => NoveltyRanker.sampleOutcome) [samplePaper] none
     (Or.inl rfl),
   rank_papers_fast_path true 10 (fun _ => NoveltyRanker.sampleOutcome) [samplePaper] none
     (Or.inr (by decide))⟩

/-- C5: for every parsed scoring response, `total_score` is the unweighted
arithmetic mean of the returned novelty, impact and clarity values; each of
those values is the parsed field with `5.0` substituted when missing; and a
`total` field carried by the response itself never influences the result. -/
theorem score_paper_total_mean (s : NoveltyRanker.ParsedScores) :
    (NoveltyRanker.score_paper (NoveltyRanker.ScoreOutcome.parsed
        s)).total_score =
      ((NoveltyRanker.score_paper (NoveltyRanker.ScoreOutcome.parsed
          s)).novelty +
       (NoveltyRanker.score_paper (NoveltyRanker.ScoreOutcome.parsed
          s)).impact +
       (NoveltyRanker.score_paper (NoveltyRanker.ScoreOutcome.parsed
          s)).clarity) / 3
    ∧ (NoveltyRanker.score_paper (NoveltyRanker.ScoreOutcome.parsed
        s)).novelty = s.novelty.getD 5
    ∧ (NoveltyRanker.score_paper (NoveltyRanker.ScoreOutcome.parsed
        s)).impact = s.impact.getD 5
    ∧ (NoveltyRanker.score_paper (NoveltyRanker.ScoreOutcome.parsed
        s)).clarity = s.clarity.getD 5
    ∧ ∀ t : Option ℚ,
        NoveltyRanker.score_paper (NoveltyRanker.ScoreOutcome.parsed
          { s with total := t }) =
        NoveltyRanker.score_paper (NoveltyRanker.ScoreOutcome.parsed s) :=
  ⟨rfl, rfl, rfl, rfl, fun _ => rfl⟩

/-- C3: given that the date window (and, for the listing variant, the upvote
floor) admits the record, the AND-mode filter passes iff every listed value is
in the record's category (resp. tag) set, the OR-mode filter passes iff at
least one is, and an empty criterion list passes every record — for both
fetcher variants. -/
theorem apply_filters_and_or_semantics (now : Int) (cfg : FilterConfig)
    (p : Paper)
    (hdate : (FilterConfig.get_date_range now cfg).1 ≤ p.metadata.published ∧
      p.metadata.published ≤ (FilterConfig.get_date_range now cfg).2)
    (hup : cfg.hf_min_upvotes > 0 → cfg.hf_min_upvotes ≤ p.metadata.upvotes) :
    (ArxivFetcher.apply_filters now cfg p = true ↔
      (cfg.arxiv_categories = [] ∨
       (cfg.arxiv_filter_mode = FilterMode.AND ∧
         ∀ c ∈ cfg.arxiv_categories, c ∈ p.metadata.categories) ∨
       (cfg.arxiv_filter_mode = FilterMode.OR ∧
         ∃ c ∈ cfg.arxiv_categories, c ∈ p.metadata.categories)))
    ∧
    (HuggingFaceFetcher.apply_filters now cfg p = true ↔
      (cfg.hf_keywords = [] ∨
       (cfg.hf_filter_mode = FilterMode.AND ∧
         ∀ c ∈ cfg.hf_keywords, c ∈ p.metadata.tags) ∨
       (cfg.hf_filter_mode = FilterMode.OR ∧
         ∃ c ∈ cfg.hf_keywords, c ∈ p.metadata.tags))) := by
  have hupvote : ¬ (cfg.hf_min_upvotes > 0 ∧
      p.metadata.upvotes < cfg.hf_min_upvotes) := by
    rintro ⟨h1, h2⟩
    exact absurd (hup h1) (not_le.mpr h2)
  constructor
  · rw [ArxivFetcher.apply_filters, if_neg (not_not_intro hdate)]
    by_cases hempty : cfg.arxiv_categories.isEmpty
    · rw [if_pos hempty]
      simp [List.isEmpty_iff.mp hempty]
    · rw [if_neg hempty]
      have hne : cfg.arxiv_categories ≠ [] := by
        simpa [List.isEmpty_iff] using hempty
      cases hmode : cfg.arxiv_filter_mode with
      | AND => simp [hne]
      | OR => simp [hne]
  · rw [HuggingFaceFetcher.apply_filters, if_neg (not_not_intro hdate),
      if_neg hupvote]
    by_cases hempty : cfg.hf_keywords.isEmpty
    · rw [if_pos hempty]
      simp [List.isEmpty_iff.mp hempty]
    · rw [if_neg hempty]
      have hne : cfg.hf_keywords ≠ [] := by
        simpa [List.isEmpty_iff] using hempty
      cases hmode : cfg.hf_filter_mode with
      | AND => simp [hne]
      | OR => simp [hne]

/-- The concrete config used by the C3 witness. -/
def sampleConfigFilters : FilterConfig :=
  { sampleConfig with
      arxiv_categories := ["cs.LG", "cs.CV"], hf_keywords := ["cs.LG"] }

/-- Witness for C3 at a concrete record and config with criterion lists. -/
theorem apply_filters_and_or_semantics_witness :
    ((FilterConfig.get_date_range 0 sampleConfigFilters).1 ≤
        samplePaper.metadata.published ∧
      samplePaper.metadata.published ≤
        (FilterConfig.get_date_range 0 sampleConfigFilters).2)
    ∧ (sampleConfigFilters.hf_min_upvotes > 0 →
        sampleConfigFilters.hf_min_upvotes ≤ samplePaper.metadata.upvotes)
    ∧ ((ArxivFetcher.apply_filters 0 sampleConfigFilters samplePaper = true ↔
        (sampleConfigFilters.arxiv_categories = [] ∨
         (sampleConfigFilters.arxiv_filter_mode = FilterMode.AND ∧
           ∀ c ∈ sampleConfigFilters.arxiv_categories,
             c ∈ samplePaper.metadata.categories) ∨
         (sampleConfigFilters.arxiv_filter_mode = FilterMode.OR ∧
           ∃ c ∈ sampleConfigFilters.arxiv_categories,
             c ∈ samplePaper.metadata.categories)))
      ∧
      (HuggingFaceFetcher.apply_filters 0 sampleConfigFilters samplePaper =
          true ↔
        (sampleConfigFilters.hf_keywords = [] ∨
         (sampleConfigFilters.hf_filter_mode = FilterMode.AND ∧
           ∀ c ∈ sampleConfigFilters.hf_keywords,
             c ∈ samplePaper.metadata.tags) ∨
         (sampleConfigFilters.hf_filter_mode = FilterMode.OR ∧
           ∃ c ∈ sampleConfigFilters.hf_keywords,
             c ∈ samplePaper.metadata.tags)))) :=
  ⟨by decide, by decide,
   apply_filters_and_or_semantics 0 sampleConfigFilters samplePaper
     (by decide) (by decide)⟩

/-- The inverted explicit date pair used by the C7 counterexample. -/
def invertedDatesConfig : FilterConfig :=
  { sampleConfig with date_from := some 10, date_to := some 5 }

/-- C7 counterexample: with both bounds explicitly set and `date_from` after
`date_to`, the resolved window of `get_date_range` has start strictly after
end — the claimed invariant `start ≤ end` fails, and no validator prevents
such a `FilterConfig`. -/
theorem get_date_range_inverted_counterexample :
    ¬ ((FilterConfig.get_date_range 0 invertedDatesConfig).1 ≤
       (FilterConfig.get_date_range 0 invertedDatesConfig).2) := by
  decide

/-- C7 amended: the resolved window satisfies `start ≤ end` when both bounds
are unset (relative resolution with `days_back ≥ 1`), and when both bounds
are explicitly set with `date_from ≤ date_to`; an explicitly inverted pair
yields an inverted window, and a single explicit bound can be inverted
relative to the current time. -/
theorem get_date_range_ordered_cases (now : Int) (cfg : FilterConfig)
    (hdb : 1 ≤ cfg.days_back)
    (h : (cfg.date_from = none ∧ cfg.date_to = none) ∨
      (∃ a b, cfg.date_from = some a ∧ cfg.date_to = some b ∧ a ≤ b)) :
    (FilterConfig.get_date_range now cfg).1 ≤
      (FilterConfig.get_date_range now cfg).2 := by
  rcases h with ⟨h1, h2⟩ | ⟨a, b, h1, h2, hab⟩ <;>
    simp only [FilterConfig.get_date_range, h1, h2, usPerDay]
  · nlinarith
  · nlinarith

/-- Witness for C7 (amended) at the default relative window. -/
theorem get_date_range_ordered_cases_witness :
    (1 ≤ sampleConfig.days_back
      ∧ (sampleConfig.date_from = none ∧ sampleConfig.date_to = none))
    ∧ (FilterConfig.get_date_range 0 sampleConfig).1 ≤
        (FilterConfig.get_date_range 0 sampleConfig).2 :=
  ⟨⟨by decide, by decide⟩,
   get_date_range_ordered_cases 0 sampleConfig (by decide)
     (Or.inl ⟨rfl, rfl⟩)⟩

/-- The out-of-range parsed response used by the C8 counterexample. -/
def outOfRangeParsed : NoveltyRanker.ParsedScores :=
  { novelty := some 20, impact := some 20, clarity := some 20
    total := none, reasoning := some "overshoot" }

/-- C8 counterexample: `NoveltyScore` carries no range validator, so the
scoring path constructs a score with fields far outside `[1, 10]` when the
model replies with out-of-range numbers: at a reply of all 20s every field of
the constructed `NoveltyScore` is `20`. -/
theorem novelty_score_out_of_range_constructible :
    (NoveltyRanker.score_paper
      (NoveltyRanker.ScoreOutcome.parsed outOfRangeParsed)).novelty = 20
    ∧ ¬ ((NoveltyRanker.score_paper
        (NoveltyRanker.ScoreOutcome.parsed outOfRangeParsed)).novelty ≤ 10)
    ∧ ¬ ((NoveltyRanker.score_paper
        (NoveltyRanker.ScoreOutcome.parsed outOfRangeParsed)).total_score ≤
          10) := by
  refine ⟨rfl, by norm_num [NoveltyRanker.score_paper, outOfRangeParsed],
    by norm_num [NoveltyRanker.score_paper, outOfRangeParsed]⟩

/-- All four numeric fields of a `NoveltyScore` lie in the closed range
`[1, 10]`. -/
def score_in_range (ns : NoveltyScore) : Prop :=
  (1 ≤ ns.total_score ∧ ns.total_score ≤ 10)
  ∧ (1 ≤ ns.novelty ∧ ns.novelty ≤ 10)
  ∧ (1 ≤ ns.impact ∧ ns.impact ≤ 10)
  ∧ (1 ≤ ns.clarity ∧ ns.clarity ≤ 10)

instance (ns : NoveltyScore) : Decidable (score_in_range ns) := by
  unfold score_in_range
  infer_instance

/-- C8 amended: `NoveltyScore` itself performs no range validation (see the
counterexample), but the sentinel score is in range, and whenever each of the
three parsed fields — after the `5.0` default for a missing field — lies in
`[1, 10]`, all four numeric fields of the score the ranker constructs lie in
`[1.0, 10.0]` (the mean of three values in the range stays in the range). -/
theorem novelty_score_in_range_conditional (s : NoveltyRanker.ParsedScores)
    (hn : 1 ≤ s.novelty.getD 5 ∧ s.novelty.getD 5 ≤ 10)
    (hi : 1 ≤ s.impact.getD 5 ∧ s.impact.getD 5 ≤ 10)
    (hc : 1 ≤ s.clarity.getD 5 ∧ s.clarity.getD 5 ≤ 10) :
    score_in_range
      (NoveltyRanker.score_paper (NoveltyRanker.ScoreOutcome.parsed s))
    ∧ ∀ e : String,
        score_in_range
          (NoveltyRanker.score_paper (NoveltyRanker.ScoreOutcome.failure e)) := by
  constructor
  · refine ⟨⟨?_, ?_⟩, hn, hi, hc⟩
    · show 1 ≤ (s.novelty.getD 5 + s.impact.getD 5 + s.clarity.getD 5) / 3
      linarith [hn.1, hi.1, hc.1]
    · show (s.novelty.getD 5 + s.impact.getD 5 + s.clarity.getD 5) / 3 ≤ 10
      linarith [hn.2, hi.2, hc.2]
  · intro e
    refine ⟨⟨?_, ?_⟩, ⟨?_, ?_⟩, ⟨?_, ?_⟩, ⟨?_, ?_⟩⟩ <;> norm_num
      [NoveltyRanker.score_paper]

/-- Witness for C8 (amended) at an in-range parsed response. -/
theorem novelty_score_in_range_conditional_witness :
    ((1 ≤ (NoveltyRanker.sampleParsed).novelty.getD 5
        ∧ (NoveltyRanker.sampleParsed).novelty.getD 5 ≤ 10)
      ∧ (1 ≤ (NoveltyRanker.sampleParsed).impact.getD 5
        ∧ (NoveltyRanker.sampleParsed).impact.getD 5 ≤ 10)
      ∧ (1 ≤ (NoveltyRanker.sampleParsed).clarity.getD 5
        ∧ (NoveltyRanker.sampleParsed).clarity.getD 5 ≤ 10))
    ∧ (score_in_range
        (NoveltyRanker.score_paper
          (NoveltyRanker.ScoreOutcome.parsed NoveltyRanker.sampleParsed))
      ∧ ∀ e : String,
          score_in_range
            (NoveltyRanker.score_paper
              (NoveltyRanker.ScoreOutcome.failure e))) :=
  ⟨⟨by decide, by decide, by decide⟩,
   novelty_score_in_range_conditional NoveltyRanker.sampleParsed
     (by decide) (by decide) (by decide)⟩

/-- If some record of the batch fails conversion, the arXiv fetch loop
returns an error (the exception propagates). -/
lemma fetch_loop_error_of_mem (now : Int) (cfg : FilterConfig)
    (rs : List RawArxiv) (r : RawArxiv) (hr : r ∈ rs)
    (he : ∃ e, ArxivClient.to_paper_metadata r = Except.error e) :
    ∃ e₂, ArxivFetcher.fetch_loop now cfg rs = Except.error e₂ := by
  induction rs with
  | nil => cases hr
  | cons y ys ih =>
      cases hy : ArxivClient.to_paper_metadata y with
      | error e₂ => exact ⟨e₂, by rw [ArxivFetcher.fetch_loop, hy]⟩
      | ok md =>
          rcases List.mem_cons.mp hr with rfl | hr'
          · rcases he with ⟨e, he⟩
            rw [hy] at he
            cases he
          · rcases ih hr' with ⟨e₂, hrec⟩
            refine ⟨e₂, ?_⟩
            rw [ArxivFetcher.fetch_loop, hy, hrec]

/-- The HuggingFace parse-and-filter loop equals parse-then-filter: failed
parses are dropped, everything else is converted and filtered in order. -/
lemma parse_batch_eq_filterMap (now : Int) (cfg : FilterConfig)
    (raws : List RawHF) :
    HuggingFaceFetcher.parse_batch now cfg raws =
      (raws.filterMap HuggingFaceFetcher.parse_paper).filter
        (HuggingFaceFetcher.apply_filters now cfg) := by
  induction raws with
  | nil => rfl
  | cons d ds ih =>
      cases hd : HuggingFaceFetcher.parse_paper d with
      | none => simp [HuggingFaceFetcher.parse_batch, hd,
          List.filterMap_cons, ih]
      | some paper =>
          by_cases hf : HuggingFaceFetcher.apply_filters now cfg paper <;>
            simp [HuggingFaceFetcher.parse_batch, hd, List.filterMap_cons,
              List.filter_cons, hf, ih]

/-- C6 counterexample: a two-record arXiv batch whose first record fails
conversion makes `fetch_metadata_only` propagate the exception — the second
record is never returned, so a malformed record does abort the
repository-variant batch. -/
theorem arxiv_conversion_aborts_batch :
    ArxivFetcher.fetch_metadata_only 0 sampleConfig [badRawArxiv, goodRawArxiv]
      = Except.error "validation error: published is a required field"
    ∧ ∀ l : List Paper,
        ArxivFetcher.fetch_metadata_only 0 sampleConfig
          [badRawArxiv, goodRawArxiv] ≠ Except.ok l := by
  refine ⟨rfl, ?_⟩
  intro l h
  rw [show ArxivFetcher.fetch_metadata_only 0 sampleConfig
      [badRawArxiv, goodRawArxiv] =
      Except.error "validation error: published is a required field" from rfl]
    at h
  cases h

/-- C6 amended: the listing-variant adapter skips a raw record whose parse
throws while the rest of the batch is still converted and returned (its loop
equals parse-then-filter over the batch); the repository-variant adapter has
no per-record guard, so a record whose conversion throws propagates the
exception out of `fetch_metadata_only` and aborts the whole batch. -/
theorem conversion_error_listing_skips_repository_aborts (now : Int)
    (cfg : FilterConfig) (hf_raws : List RawHF) (ax_raws : List RawArxiv)
    (r : RawArxiv) (hs : Source.arxiv ∈ cfg.sources) (hr : r ∈ ax_raws)
    (he : ∃ e, ArxivClient.to_paper_metadata r = Except.error e) :
    HuggingFaceFetcher.parse_batch now cfg hf_raws =
      (hf_raws.filterMap HuggingFaceFetcher.parse_paper).filter
        (HuggingFaceFetcher.apply_filters now cfg)
    ∧ ∃ e₂, ArxivFetcher.fetch_metadata_only now cfg ax_raws =
        Except.error e₂ := by
  refine ⟨parse_batch_eq_filterMap now cfg hf_raws, ?_⟩
  rw [ArxivFetcher.fetch_metadata_only, if_neg (not_not_intro hs)]
  exact fetch_loop_error_of_mem now cfg ax_raws r hr he

/-- Witness for C6 (amended) at concrete batches with one malformed record
each. -/
theorem conversion_error_listing_skips_repository_aborts_witness :
    (Source.arxiv ∈ sampleConfig.sources
      ∧ badRawArxiv ∈ [badRawArxiv, goodRawArxiv]
      ∧ ∃ e, ArxivClient.to_paper_metadata badRawArxiv = Except.error e)
    ∧ (HuggingFaceFetcher.parse_batch 0 sampleConfig [badRawHF, goodRawHF] =
        (([badRawHF, goodRawHF].filterMap
            HuggingFaceFetcher.parse_paper).filter
          (HuggingFaceFetcher.apply_filters 0 sampleConfig))
      ∧ ∃ e₂, ArxivFetcher.fetch_metadata_only 0 sampleConfig
          [badRawArxiv, goodRawArxiv] = Except.error e₂) :=
  ⟨⟨by decide, by decide,
    ⟨"validation error: published is a required field", rfl⟩⟩,
   conversion_error_listing_skips_repository_aborts 0 sampleConfig
     [badRawHF, goodRawHF] [badRawArxiv, goodRawArxiv] badRawArxiv
     (by decide) (by decide)
     ⟨"validation error: published is a required field", rfl⟩⟩

/-- The scoring loop never modifies a paper's metadata. -/
lemma score_step_metadata (llm : Paper → NoveltyRanker.ScoreOutcome)
    (p : Paper) : (NoveltyRanker.score_step llm p).metadata = p.metadata := by
  rw [NoveltyRanker.score_step]
  split <;> rfl

/-- Content processing never modifies a paper's metadata. -/
lemma process_paper_metadata (o : ArxivFetcher.ProcOutcome) (p : Paper) :
    (ArxivFetcher.process_paper o p).metadata = p.metadata := by
  rw [ArxivFetcher.process_paper]
  split <;> rfl

/-- Summarization carries the paper's metadata through unchanged. -/
lemma summarize_paper_metadata (gen : Paper → Except String String)
    (p : Paper) :
    (SummarizerAgent.summarize_paper gen p).metadata = p.metadata := rfl

/-- Papers selected by `rank_papers` keep the common source of the input. -/
lemma rank_papers_source (enabled : Bool) (c : Nat)
    (llm : Paper → NoveltyRanker.ScoreOutcome) (papers : List Paper)
    (t : Option Nat) (s : Source)
    (h : ∀ q ∈ papers, q.metadata.source = s) :
    ∀ p ∈ (NoveltyRanker.rank_papers enabled c llm papers t).1,
      p.metadata.source = s := by
  intro p hp
  by_cases he : enabled = false
  · rw [rank_papers_fast_path enabled c llm papers t (Or.inl he)] at hp
    exact h p hp
  · by_cases hn : papers.length ≤ NoveltyRanker.effective_top_n t c
    · rw [rank_papers_fast_path enabled c llm papers t (Or.inr hn)] at hp
      exact h p hp
    · have he' : enabled = true := by
        cases enabled
        · exact absurd rfl he
        · rfl
      subst he'
      rw [NoveltyRanker.rank_papers_run c llm papers t (not_le.mp hn)] at hp
      have h1 := List.Sublist.mem hp (List.take_sublist _ _)
      have h2 := (NoveltyRanker.sort_desc_perm _).mem_iff.mp h1
      have h3 := (List.mem_filter.mp h2).1
      rcases List.mem_map.mp h3 with ⟨q, hq, rfl⟩
      rw [score_step_metadata]
      exact h q hq

/-- Papers selected by the ranker's `execute` keep the common source. -/
lemma execute_source (enabled : Bool) (c : Nat)
    (llm : Paper → NoveltyRanker.ScoreOutcome) (papers : List Paper)
    (fc : FilterConfig) (s : Source)
    (h : ∀ q ∈ papers, q.metadata.source = s) :
    ∀ p ∈ (NoveltyRanker.execute enabled c llm papers fc).1,
      p.metadata.source = s := by
  intro p hp
  rw [NoveltyRanker.execute] at hp
  by_cases hfc : fc.novelty_enabled = false
  · rw [if_pos hfc] at hp
    exact h p hp
  · rw [if_neg hfc] at hp
    exact rank_papers_source enabled c llm papers (some fc.novelty_top_n) s h
      p hp

/-- A successful arXiv conversion always tags the metadata `arxiv`. -/
lemma to_paper_metadata_source (r : RawArxiv) (md : PaperMetadata)
    (h : ArxivClient.to_paper_metadata r = Except.ok md) :
    md.source = Source.arxiv := by
  rw [ArxivClient.to_paper_metadata] at h
  cases hr : r.published with
  | none => rw [hr] at h; cases h
  | some ts => rw [hr] at h; cases h; rfl

/-- Every paper produced by the arXiv fetch loop has source `arxiv`. -/
lemma fetch_loop_sources (now : Int) (cfg : FilterConfig)
    (rs : List RawArxiv) (l : List Paper)
    (h : ArxivFetcher.fetch_loop now cfg rs = Except.ok l) :
    ∀ p ∈ l, p.metadata.source = Source.arxiv := by
  induction rs generalizing l with
  | nil =>
      rw [ArxivFetcher.fetch_loop] at h
      cases h
      intro p hp
      cases hp
  | cons r rs ih =>
      intro p hp
      rw [ArxivFetcher.fetch_loop] at h
      cases hc : ArxivClient.to_paper_metadata r with
      | error e => rw [hc] at h; cases h
      | ok md =>
          simp only [hc] at h
          cases hrec : ArxivFetcher.fetch_loop now cfg rs with
          | error e =>
              simp only [hrec] at h
              exact absurd h (by simp)
          | ok rest =>
              simp only [hrec] at h
              by_cases hfil : ArxivFetcher.apply_filters now cfg
                  { metadata := md, pdf_path := none, full_text := none
                    image_paths := [], novelty_score := none } = true
              · rw [if_pos hfil] at h
                cases h
                rcases List.mem_cons.mp hp with rfl | hp'
                · exact to_paper_metadata_source r md hc
                · exact ih rest hrec p hp'
              · rw [if_neg hfil] at h
                cases h
                exact ih _ hrec p hp

/-- Fetched arXiv papers all have source `arxiv`. -/
lemma fetch_metadata_only_sources (now : Int) (cfg : FilterConfig)
    (raws : List RawArxiv) (l : List Paper)
    (h : ArxivFetcher.fetch_metadata_only now cfg raws = Except.ok l) :
    ∀ p ∈ l, p.metadata.source = Source.arxiv := by
  rw [ArxivFetcher.fetch_metadata_only] at h
  by_cases hs : Source.arxiv ∈ cfg.sources
  · rw [if_neg (not_not_intro hs)] at h
    exact fetch_loop_sources now cfg raws l h
  · rw [if_pos hs] at h
    cases h
    intro p hp
    cases hp

/-- A successfully parsed HuggingFace paper has source `huggingface`. -/
lemma parse_paper_source (d : RawHF) (p : Paper)
    (h : HuggingFaceFetcher.parse_paper d = some p) :
    p.metadata.source = Source.huggingface := by
  rw [HuggingFaceFetcher.parse_paper] at h
  cases hd : d.publishedAt with
  | none => rw [hd] at h; cases h
  | some ts => rw [hd] at h; cases h; rfl

/-- Every paper produced by the HuggingFace parse loop has source
`huggingface`. -/
lemma parse_batch_sources (now : Int) (cfg : FilterConfig)
    (raws : List RawHF) :
    ∀ p ∈ HuggingFaceFetcher.parse_batch now cfg raws,
      p.metadata.source = Source.huggingface := by
  induction raws with
  | nil => intro p hp; cases hp
  | cons d ds ih =>
      intro p hp
      rw [HuggingFaceFetcher.parse_batch] at hp
      cases hd : HuggingFaceFetcher.parse_paper d with
      | none =>
          rw [hd] at hp
          exact ih p hp
      | some paper =>
          simp only [hd] at hp
          by_cases hfil : HuggingFaceFetcher.apply_filters now cfg paper = true
          · rw [if_pos hfil] at hp
            rcases List.mem_cons.mp hp with rfl | hp'
            · exact parse_paper_source d p hd
            · exact ih p hp'
          · rw [if_neg hfil] at hp
            exact ih p hp

/-- Every paper returned by `fetch_daily_papers` has source `huggingface`. -/
lemma fetch_daily_papers_sources (now : Int) (cfg : FilterConfig)
    (net : Except String (List RawHF)) :
    ∀ p ∈ HuggingFaceFetcher.fetch_daily_papers now cfg net,
      p.metadata.source = Source.huggingface := by
  intro p hp
  rw [HuggingFaceFetcher.fetch_daily_papers.eq_def] at hp
  by_cases hs : Source.huggingface ∈ cfg.sources
  · rw [if_neg (not_not_intro hs)] at hp
    cases net with
    | error e => cases hp
    | ok raws =>
        exact parse_batch_sources now cfg raws p
          (List.Sublist.mem hp (List.take_sublist _ _))
  · rw [if_pos hs] at hp
    cases hp

/-- A whole-batch listing failure yields the empty list. -/
lemma fetch_daily_papers_error (now : Int) (cfg : FilterConfig) (e : String) :
    HuggingFaceFetcher.fetch_daily_papers now cfg (Except.error e) = [] := by
  by_cases hs : Source.huggingface ∈ cfg.sources <;>
    simp [HuggingFaceFetcher.fetch_daily_papers, hs]

/-- Filtering a mapped summary list by source counts the underlying papers. -/
lemma length_filter_map_summarize (gen : Paper → Except String String)
    (l : List Paper) (src : Source) :
    ((l.map (SummarizerAgent.summarize_paper gen)).filter
      (fun s => s.metadata.source = src)).length =
    (l.filter (fun p => p.metadata.source = src)).length := by
  induction l with
  | nil => rfl
  | cons p ps ih =>
      have hm : (SummarizerAgent.summarize_paper gen p).metadata =
          p.metadata := rfl
      by_cases hsrc : p.metadata.source = src <;>
        simp [List.filter_cons, hm, hsrc, ih]

/-- Counting summaries by the two sources partitions the whole list. -/
lemma length_filter_source_partition (l : List PaperSummary) :
    (l.filter (fun s => s.metadata.source = Source.arxiv)).length +
      (l.filter (fun s => s.metadata.source = Source.huggingface)).length =
    l.length := by
  induction l with
  | nil => rfl
  | cons x xs ih =>
      cases hx : x.metadata.source <;>
        simp [List.filter_cons, hx, ← ih] <;> omega

/-- The per-source counts computed by the post-fetch pipeline stages: the
listing-source count is exactly the number of fetched listing papers, and the
repository-source count depends only on the repository partition. -/
lemma run_core_counts (cfg : FilterConfig) (rkE : Bool) (rkT : Nat)
    (llm : Paper → NoveltyRanker.ScoreOutcome) (pp : Bool)
    (proc : Paper → ArxivFetcher.ProcOutcome)
    (gen : Paper → Except String String) (today : String)
    (A H : List Paper)
    (hA : ∀ p ∈ A, p.metadata.source = Source.arxiv)
    (hH : ∀ p ∈ H, p.metadata.source = Source.huggingface) :
    (PaperReviewPipeline.run_core cfg rkE rkT llm pp proc gen today
        A H).huggingface_count = H.length
    ∧ (PaperReviewPipeline.run_core cfg rkE rkT llm pp proc gen today
        A H).arxiv_count =
      (if ¬ A.isEmpty ∧ cfg.novelty_enabled then
        (NoveltyRanker.execute rkE rkT llm A cfg).1.length
       else A.length) := by
  have h1 : A.filter (fun p => p.metadata.source = Source.arxiv) = A :=
    List.filter_eq_self.mpr (fun a ha => by simp [hA a ha])
  have h2 : H.filter (fun p => p.metadata.source = Source.arxiv) = [] :=
    List.filter_eq_nil_iff.mpr (fun a ha => by simp [hH a ha])
  have h3 : A.filter (fun p => p.metadata.source = Source.huggingface) = [] :=
    List.filter_eq_nil_iff.mpr (fun a ha => by simp [hA a ha])
  have h4 : H.filter (fun p => p.metadata.source = Source.huggingface) = H :=
    List.filter_eq_self.mpr (fun a ha => by simp [hH a ha])
  have hfA : (A ++ H).filter (fun p => p.metadata.source = Source.arxiv)
      = A := by
    rw [List.filter_append, h1, h2, List.append_nil]
  have hfH : (A ++ H).filter (fun p => p.metadata.source = Source.huggingface)
      = H := by
    rw [List.filter_append, h3, h4, List.nil_append]
  by_cases hemp : (A ++ H).isEmpty = true
  · rcases List.append_eq_nil.mp (List.isEmpty_iff.mp hemp) with ⟨ha, hb⟩
    subst ha
    subst hb
    simp [PaperReviewPipeline.run_core, PaperReviewPipeline.create_empty_report]
  · simp only [PaperReviewPipeline.run_core, hemp, if_false]
    rw [hfA, hfH]
    set R : List Paper :=
      if ¬ A.isEmpty ∧ cfg.novelty_enabled then
        (NoveltyRanker.execute rkE rkT llm A cfg).1
      else A with hR
    have hRsrc : ∀ p ∈ R, p.metadata.source = Source.arxiv := by
      intro p hp
      rw [hR] at hp
      by_cases hc : ¬ A.isEmpty ∧ cfg.novelty_enabled
      · rw [if_pos hc] at hp
        exact execute_source rkE rkT llm A cfg Source.arxiv hA p hp
      · rw [if_neg hc] at hp
        exact hA p hp
    set P : List Paper :=
      if pp ∧ ¬ R.isEmpty then
        R.map (fun p => ArxivFetcher.process_paper (proc p) p)
      else R with hP
    have hPsrc : ∀ p ∈ P, p.metadata.source = Source.arxiv := by
      intro p hp
      rw [hP] at hp
      by_cases hc : pp ∧ ¬ R.isEmpty
      · rw [if_pos hc] at hp
        rcases List.mem_map.mp hp with ⟨q, hq, rfl⟩
        rw [process_paper_metadata]
        exact hRsrc q hq
      · rw [if_neg hc] at hp
        exact hRsrc p hp
    have hPlen : P.length = R.length := by
      rw [hP]
      by_cases hc : pp ∧ ¬ R.isEmpty
      · rw [if_pos hc, List.length_map]
      · rw [if_neg hc]
    have hPfilA : P.filter (fun p => p.metadata.source = Source.arxiv) = P :=
      List.filter_eq_self.mpr (fun a ha => by simp [hPsrc a ha])
    have hPfilH :
        P.filter (fun p => p.metadata.source = Source.huggingface) = [] :=
      List.filter_eq_nil_iff.mpr (fun a ha => by simp [hPsrc a ha])
    constructor
    · simp only [Bool.false_eq_true, if_false]
      rw [List.map_append, List.filter_append, List.length_append,
        length_filter_map_summarize, length_filter_map_summarize, hPfilH, h4]
      rw [List.length_nil, Nat.zero_add]
    · simp only [Bool.false_eq_true, if_false]
      rw [List.map_append, List.filter_append, List.length_append,
        length_filter_map_summarize, length_filter_map_summarize, hPfilA, h2]
      rw [List.length_nil, Nat.add_zero, hPlen, hR]
      by_cases hg : ¬ A.isEmpty = true ∧ cfg.novelty_enabled = true
      · rw [if_pos hg, if_pos hg]
      · rw [if_neg hg, if_neg hg]

/-- C9: when the listing-source fetch fails as a whole, the listing adapter
returns the empty sequence (no exception propagates), and — provided the
repository fetch itself succeeded — the pipeline run still completes with a
report whose listing-source count is 0 and whose repository-source count is
the same as it would be for any successful listing fetch. -/
theorem pipeline_tolerates_listing_failure
    (cfg : FilterConfig) (now : Int) (rkE : Bool) (rkT : Nat)
    (llm : Paper → NoveltyRanker.ScoreOutcome) (pp : Bool)
    (proc : Paper → ArxivFetcher.ProcOutcome)
    (gen : Paper → Except String String) (today : String)
    (ax_raws : List RawArxiv) (e : String) (aps : List Paper)
    (harx : ArxivFetcher.fetch_metadata_only now cfg ax_raws =
      Except.ok aps) :
    HuggingFaceFetcher.fetch_daily_papers now cfg (Except.error e) = []
    ∧ ∃ report,
        PaperReviewPipeline.run cfg now rkE rkT llm pp proc gen today ax_raws
          (Except.error e) = Except.ok report
        ∧ report.huggingface_count = 0
        ∧ ∀ (hf_data : List RawHF) (report2 : SummaryReport),
            PaperReviewPipeline.run cfg now rkE rkT llm pp proc gen today
              ax_raws (Except.ok hf_data) = Except.ok report2 →
            report2.arxiv_count = report.arxiv_count := by
  have hfetch : (if Source.arxiv ∈ cfg.sources then
      ArxivFetcher.fetch_metadata_only now cfg ax_raws else Except.ok []) =
      Except.ok (if Source.arxiv ∈ cfg.sources then aps else []) := by
    by_cases hs : Source.arxiv ∈ cfg.sources
    · rw [if_pos hs, if_pos hs, harx]
    · rw [if_neg hs, if_neg hs]
  have hAsrc : ∀ p ∈ (if Source.arxiv ∈ cfg.sources then aps else []),
      p.metadata.source = Source.arxiv := by
    by_cases hs : Source.arxiv ∈ cfg.sources
    · rw [if_pos hs]
      exact fetch_metadata_only_sources now cfg ax_raws aps harx
    · rw [if_neg hs]
      intro p hp
      cases hp
  have hrun1 : PaperReviewPipeline.run cfg now rkE rkT llm pp proc gen today
      ax_raws (Except.error e) =
      Except.ok (PaperReviewPipeline.run_core cfg rkE rkT llm pp proc gen
        today (if Source.arxiv ∈ cfg.sources then aps else []) []) := by
    rw [PaperReviewPipeline.run]
    simp only [hfetch, fetch_daily_papers_error now cfg e, ite_self]
  refine ⟨fetch_daily_papers_error now cfg e,
    PaperReviewPipeline.run_core cfg rkE rkT llm pp proc gen today
      (if Source.arxiv ∈ cfg.sources then aps else []) [], hrun1, ?_, ?_⟩
  · exact (run_core_counts cfg rkE rkT llm pp proc gen today _ [] hAsrc
      (by intro p hp; cases hp)).1
  · intro hf_data report2 h2
    have hrun2 : PaperReviewPipeline.run cfg now rkE rkT llm pp proc gen
        today ax_raws (Except.ok hf_data) =
        Except.ok (PaperReviewPipeline.run_core cfg rkE rkT llm pp proc gen
          today (if Source.arxiv ∈ cfg.sources then aps else [])
          (if Source.huggingface ∈ cfg.sources then
            HuggingFaceFetcher.fetch_daily_papers now cfg
              (Except.ok hf_data)
           else [])) := by
      rw [PaperReviewPipeline.run]
      simp only [hfetch]
    rw [hrun2] at h2
    cases h2
    have hHsrc : ∀ p ∈ (if Source.huggingface ∈ cfg.sources then
        HuggingFaceFetcher.fetch_daily_papers now cfg (Except.ok hf_data)
        else []), p.metadata.source = Source.huggingface := by
      by_cases hs : Source.huggingface ∈ cfg.sources
      · rw [if_pos hs]
        exact fetch_daily_papers_sources now cfg (Except.ok hf_data)
      · rw [if_neg hs]
        intro p hp
        cases hp
    rw [(run_core_counts cfg rkE rkT llm pp proc gen today _ _ hAsrc
        hHsrc).2,
      (run_core_counts cfg rkE rkT llm pp proc gen today _ [] hAsrc
        (by intro p hp; cases hp)).2]

/-- Witness for C9 at a concrete run with a failed listing fetch. -/
theorem pipeline_tolerates_listing_failure_witness :
    ArxivFetcher.fetch_metadata_only 0 sampleConfig [] = Except.ok []
    ∧ (HuggingFaceFetcher.fetch_daily_papers 0 sampleConfig
        (Except.error "timeout") = []
      ∧ ∃ report,
          PaperReviewPipeline.run sampleConfig 0 true 10
            (fun _ => NoveltyRanker.sampleOutcome) false (fun _ => ⟨none, none, []⟩)
            (fun _ => Except.ok "summary") "2026-01-01" []
            (Except.error "timeout") = Except.ok report
          ∧ report.huggingface_count = 0
          ∧ ∀ (hf_data : List RawHF) (report2 : SummaryReport),
              PaperReviewPipeline.run sampleConfig 0 true 10
                (fun _ => NoveltyRanker.sampleOutcome) false (fun _ => ⟨none, none, []⟩)
                (fun _ => Except.ok "summary") "2026-01-01" []
                (Except.ok hf_data) = Except.ok report2 →
              report2.arxiv_count = report.arxiv_count) :=
  ⟨rfl,
   pipeline_tolerates_listing_failure sampleConfig 0 true 10
     (fun _ => NoveltyRanker.sampleOutcome) false (fun _ => ⟨none, none, []⟩)
     (fun _ => Except.ok "summary") "2026-01-01" [] "timeout" [] rfl⟩

/-- The report assembled by the post-fetch stages satisfies the partition
count identity. -/
lemma run_core_total_eq (cfg : FilterConfig) (rkE : Bool) (rkT : Nat)
    (llm : Paper → NoveltyRanker.ScoreOutcome) (pp : Bool)
    (proc : Paper → ArxivFetcher.ProcOutcome)
    (gen : Paper → Except String String) (today : String)
    (A H : List Paper) :
    (PaperReviewPipeline.run_core cfg rkE rkT llm pp proc gen today
        A H).total_papers =
      (PaperReviewPipeline.run_core cfg rkE rkT llm pp proc gen today
        A H).arxiv_count +
      (PaperReviewPipeline.run_core cfg rkE rkT llm pp proc gen today
        A H).huggingface_count
    ∧ (PaperReviewPipeline.run_core cfg rkE rkT llm pp proc gen today
        A H).total_papers =
      (PaperReviewPipeline.run_core cfg rkE rkT llm pp proc gen today
        A H).summaries.length := by
  by_cases hemp : (A ++ H).isEmpty = true
  · simp [PaperReviewPipeline.run_core, hemp,
      PaperReviewPipeline.create_empty_report]
  · simp only [PaperReviewPipeline.run_core, hemp, Bool.false_eq_true,
      if_false]
    exact ⟨(length_filter_source_partition _).symm, by trivial⟩

/-- C10: every report a pipeline run returns satisfies
`total_papers = arxiv_count + huggingface_count = length of summaries`. -/
theorem report_counts_consistent (cfg : FilterConfig) (now : Int)
    (rkE : Bool) (rkT : Nat) (llm : Paper → NoveltyRanker.ScoreOutcome)
    (pp : Bool) (proc : Paper → ArxivFetcher.ProcOutcome)
    (gen : Paper → Except String String) (today : String)
    (ax_raws : List RawArxiv) (hf_net : Except String (List RawHF))
    (report : SummaryReport)
    (h : PaperReviewPipeline.run cfg now rkE rkT llm pp proc gen today
      ax_raws hf_net = Except.ok report) :
    report.total_papers = report.arxiv_count + report.huggingface_count
    ∧ report.total_papers = report.summaries.length := by
  rw [PaperReviewPipeline.run] at h
  cases hf : (if Source.arxiv ∈ cfg.sources then
      ArxivFetcher.fetch_metadata_only now cfg ax_raws else Except.ok [])
    with
  | error e =>
      rw [hf] at h
      cases h
  | ok aps =>
      simp only [hf] at h
      cases h
      exact run_core_total_eq cfg rkE rkT llm pp proc gen today aps _

/-- Witness for C10 at a concrete empty run. -/
theorem report_counts_consistent_witness :
    PaperReviewPipeline.run sampleConfig 0 true 10 (fun _ => NoveltyRanker.sampleOutcome)
      false (fun _ => ⟨none, none, []⟩) (fun _ => Except.ok "summary")
      "2026-01-01" [] (Except.error "down") =
      Except.ok (PaperReviewPipeline.create_empty_report "2026-01-01")
    ∧ ((PaperReviewPipeline.create_empty_report "2026-01-01").total_papers =
        (PaperReviewPipeline.create_empty_report "2026-01-01").arxiv_count +
        (PaperReviewPipeline.create_empty_report
          "2026-01-01").huggingface_count
      ∧ (PaperReviewPipeline.create_empty_report "2026-01-01").total_papers =
        (PaperReviewPipeline.create_empty_report
          "2026-01-01").summaries.length) :=
  ⟨rfl,
   report_counts_consistent sampleConfig 0 true 10 (fun _ => NoveltyRanker.sampleOutcome)
     false (fun _ => ⟨none, none, []⟩) (fun _ => Except.ok "summary")
     "2026-01-01" [] (Except.error "down")
     (PaperReviewPipeline.create_empty_report "2026-01-01") rfl⟩
